import Mathlib

/-!
Scene browser of the Unity3D-to-gameplay3d exporter example (`Example.cpp`).

A shallow embedding of the application object `Example` (`Example.h`,
`Example.cpp`): its four data members, the constructor, `initialize`,
`LoadScene`, `finalize`, `render` and `keyEvent`.

Modelling conventions

* `int sceneIndex` is an `Int` kept in the range of a 32-bit `int` by `toInt`,
  the two's-complement wrap-around the compiled program performs: `++`, `--`,
  `static_cast<int>` and `size() - 1` all go through it.  (In C++ itself a
  signed overflow is undefined behaviour; whatever it does, an `int` cannot hold
  a value past `INT_MAX`.)
* The gameplay engine is not part of the repository.  What a call into it
  answers is a parameter (`Engine`): the directory listing (of at most `INT_MAX`
  names), the scene a path loads (or null) and the font a path creates (or
  null).  A scene is the list of its named nodes and its active camera.
* Pointers are `Option`s.  Reference counting is a count of the objects the
  application holds (`liveScenes`, `liveFonts`) and the largest number of scenes
  it ever held at once (`peakScenes`).
* A call either runs to its end, ends the process (`Game::exit`), or stops at a
  failed `GP_ASSERT`, a null dereference, an exception or a buffer overrun: the
  `Outcome` is the application state at that point together with the `Status`.
-/

/-- Engine camera (`gameplay::Camera`), identified by a number. -/
structure Camera where
  id : Nat
deriving DecidableEq, Repr

/-- Engine node (`gameplay::Node`): `camera` is what `Node::getCamera` returns. -/
structure Node where
  camera : Option Camera
deriving DecidableEq, Repr

/-- Engine scene (`gameplay::Scene`): its nodes by name and its active camera. -/
structure Scene where
  nodes : List (String × Node)
  activeCamera : Option Camera
deriving DecidableEq, Repr

/-- Engine font (`gameplay::Font`): `size` is what `Font::getSize` returns. -/
structure Font where
  size : Nat
deriving DecidableEq, Repr

/-- The call `Scene::findNode(id)`: the first node with that name, or null. -/
def Scene.findNode (sc : Scene) (id : String) : Option Node :=
  (sc.nodes.find? (fun p => p.1 == id)).map Prod.snd

/-- The call `Scene::setActiveCamera(camera)`. -/
def Scene.setActiveCamera (sc : Scene) (camera : Camera) : Scene :=
  { sc with activeCamera := some camera }

/-- What the engine answers at the time of a call: `FileSystem::listFiles(dir)`,
`Scene::load(path)` and `Font::create(path)`. -/
structure Engine where
  listFiles : String → List String
  sceneLoad : String → Option Scene
  fontCreate : String → Option Font
  /-- A directory listing holds at most `INT_MAX` names. -/
  fits : ∀ dir, (listFiles dir).length ≤ 2147483647

/-- The ways a call stops before its end. -/
inductive Failure where
  /-- The failed assertion `GP_ASSERT(font)` in `initialize`. -/
  | assertFont
  /-- The failed assertion `GP_ASSERT(cameraNode && cameraNode->getCamera())` in `LoadScene`. -/
  | assertCamera
  /-- A member call through a null pointer. -/
  | nullPointer
  /-- The exception `std::out_of_range` thrown by `std::vector::at`. -/
  | outOfRange
  /-- The call `sprintf` writes past the end of `char buffer[255]`. -/
  | bufferOverrun
deriving DecidableEq, Repr

/-- How a call ended. -/
inductive Status where
  | running
  | exited
  | failed (f : Failure)
deriving DecidableEq, Repr

/-- The application object: the four data members of `class Example`, and the
engine-side bookkeeping of the objects it holds. -/
structure Example where
  /-- Member `Scene * scene`. -/
  scene : Option Scene
  /-- Member `Font * font`. -/
  font : Option Font
  /-- Member `int sceneIndex`. -/
  sceneIndex : Int
  /-- Member `std::vector<std::string> sceneList`. -/
  sceneList : List String
  /-- Bookkeeping: scenes loaded by the application and not yet released. -/
  liveScenes : Nat
  /-- Bookkeeping: the largest value `liveScenes` ever had. -/
  peakScenes : Nat
  /-- Bookkeeping: fonts created by the application and not yet released. -/
  liveFonts : Nat
deriving DecidableEq, Repr

/-- The application state where a call stopped, and how it stopped. -/
structure Outcome where
  state : Example
  status : Status
deriving DecidableEq, Repr

/-- Keyboard event kinds (`Keyboard::KeyEvent`). -/
inductive KeyEvent where
  | KEY_PRESS
  | KEY_RELEASE
  | KEY_CHAR
deriving DecidableEq, Repr

/-- Key codes (`Keyboard::Key`): the four the application looks at, and the rest. -/
inductive Key where
  | KEY_ESCAPE
  | KEY_LEFT_ARROW
  | KEY_RIGHT_ARROW
  | KEY_SPACE
  | other (code : Nat)
deriving DecidableEq, Repr

/-- The largest `int`. -/
def INT_MAX : Int := 2147483647

/-- The smallest `int`. -/
def INT_MIN : Int := -2147483648

/-- The value an `int` holds after an operation or conversion whose exact result
is `x`: `x` itself when it is in `[INT_MIN, INT_MAX]`, wrapped modulo `2^32`
otherwise. -/
def toInt (x : Int) : Int :=
  (x + 2147483648) % 4294967296 - 2147483648

/-- The global `char const * sceneDir = "res/scenes/";`. -/
def sceneDir : String := "res/scenes/"

/-- The constructor `Example::Example()`: null handles, index 0, empty list. -/
def Example.ctor : Example :=
  { scene := none, font := none, sceneIndex := 0, sceneList := [],
    liveScenes := 0, peakScenes := 0, liveFonts := 0 }

/-- The call `std::vector::at(i)` with an `int` argument: a negative `i` converts
to a huge `size_type`, so every index outside `[0, size)` throws. -/
def vectorAt (v : List String) (i : Int) : Option String :=
  if i < 0 then none else v[i.toNat]?

/-- The statement `SAFE_RELEASE(scene)`: release and null a non-null handle. -/
def Example.SAFE_RELEASE_scene (s : Example) : Example :=
  match s.scene with
  | some _ => { s with scene := none, liveScenes := s.liveScenes - 1 }
  | none => s

/-- The statement `SAFE_RELEASE(font)`: release and null a non-null handle. -/
def Example.SAFE_RELEASE_font (s : Example) : Example :=
  match s.font with
  | some _ => { s with font := none, liveFonts := s.liveFonts - 1 }
  | none => s

/-- The wrap expression of `LoadScene`:
`sceneIndex > maxSceneIndex ? 0 : sceneIndex < 0 ? maxSceneIndex : sceneIndex`
with `maxSceneIndex = static_cast<int>(sceneList.size()) - 1`. -/
def wrapSceneIndex (sceneIndex : Int) (size : Nat) : Int :=
  let maxSceneIndex : Int := toInt (toInt (size : Int) - 1)
  if sceneIndex > maxSceneIndex then 0
  else if sceneIndex < 0 then maxSceneIndex
  else sceneIndex

/-- The assignment `scene = Scene::load(path)`: the handle takes the result, and a
non-null result is one more live scene. -/
def Example.assignScene (s : Example) (loaded : Option Scene) : Example :=
  match loaded with
  | some sc =>
    { s with scene := some sc, liveScenes := s.liveScenes + 1,
             peakScenes := max s.peakScenes (s.liveScenes + 1) }
  | none => { s with scene := none }

/-- The method `Example::LoadScene`. -/
def Example.LoadScene (s : Example) (eng : Engine) : Outcome :=
  -- sceneList.clear(); FileSystem::listFiles(sceneDir, sceneList);
  let s1 : Example := { s with sceneList := eng.listFiles sceneDir }
  if s1.sceneList.isEmpty then
    { state := s1, status := .running }
  else
    let s2 := s1.SAFE_RELEASE_scene
    let s3 : Example := { s2 with sceneIndex := wrapSceneIndex s2.sceneIndex s2.sceneList.length }
    match vectorAt s3.sceneList s3.sceneIndex with
    | none => { state := s3, status := .failed .outOfRange }
    | some name =>
      let loaded := eng.sceneLoad (sceneDir ++ name)
      let s4 := s3.assignScene loaded
      match loaded with
      | none => { state := s4, status := .failed .nullPointer }
      | some sc =>
        -- Node * cameraNode = scene->findNode("Camera");
        -- GP_ASSERT(cameraNode && cameraNode->getCamera());
        match sc.findNode "Camera" with
        | none => { state := s4, status := .failed .assertCamera }
        | some cameraNode =>
          match cameraNode.camera with
          | none => { state := s4, status := .failed .assertCamera }
          | some camera =>
            { state := { s4 with scene := some (sc.setActiveCamera camera) },
              status := .running }

/-- The method `Example::initialize`. -/
def Example.initialize (s : Example) (eng : Engine) : Outcome :=
  let created := eng.fontCreate "res/arial.gpb"
  match created with
  | none => { state := { s with font := none }, status := .failed .assertFont }
  | some f =>
    Example.LoadScene { s with font := some f, liveFonts := s.liveFonts + 1 } eng

/-- The method `Example::finalize`. -/
def Example.finalize (s : Example) : Example :=
  s.SAFE_RELEASE_scene.SAFE_RELEASE_font

/-- The call `sprintf(buffer, ...)` into `char buffer[255]`: the text and its
terminating zero must fit. -/
def sprintf (text : String) : Except Failure String :=
  if text.utf8ByteSize < 255 then .ok text else .error .bufferOverrun

/-- The method `Example::render`: the texts drawn with their `y` positions, or the failure
that stops the frame. -/
def Example.render (s : Example) : Except Failure (List (String × Int)) :=
  match s.font with
  | none => .error .nullPointer
  | some font =>
    -- int y = 0; int const spacing = font->getSize();
    let spacing : Int := toInt font.size
    let line0 : String × Int := ("Press Space to reload current scene", 0)
    match sprintf ("Press Left/Right arrow to browse scenes in '" ++ sceneDir ++ "'") with
    | .error f => .error f
    | .ok text1 =>
      let y1 : Int := toInt (0 + spacing)
      let line1 : String × Int := (text1, y1)
      match s.scene with
      | none => .ok [line0, line1]
      | some sc =>
        -- getPhysicsController()->drawDebug(scene->getActiveCamera()->getViewProjectionMatrix());
        match sc.activeCamera with
        | none => .error .nullPointer
        | some _ =>
          match vectorAt s.sceneList s.sceneIndex with
          | none => .error .outOfRange
          | some name =>
            match sprintf ("Current scene [" ++ toString s.sceneIndex ++ "] '" ++ name ++ "'") with
            | .error f => .error f
            | .ok text2 => .ok [line0, line1, (text2, toInt (y1 + spacing))]

/-- The method `Example::keyEvent`. -/
def Example.keyEvent (s : Example) (eng : Engine) (evt : KeyEvent) (key : Key) : Outcome :=
  match evt with
  | .KEY_PRESS =>
    match key with
    | .KEY_ESCAPE => { state := s, status := .exited }
    | .KEY_LEFT_ARROW =>
      -- --sceneIndex; LoadScene();
      Example.LoadScene { s with sceneIndex := toInt (s.sceneIndex - 1) } eng
    | .KEY_RIGHT_ARROW =>
      -- ++sceneIndex; LoadScene();
      Example.LoadScene { s with sceneIndex := toInt (s.sceneIndex + 1) } eng
    | .KEY_SPACE => Example.LoadScene s eng
    | .other _ => { state := s, status := .running }
  | _ => { state := s, status := .running }

/-- A sequence of key events, each with the engine answers of its moment: the
events are handled in order for as long as every call runs to its end; the
first call that ends the process or stops on a failure ends the sequence. -/
def Example.keyEvents (s : Example) : List (Engine × KeyEvent × Key) → Outcome
  | [] => { state := s, status := .running }
  | (eng, evt, key) :: rest =>
    match Example.keyEvent s eng evt key with
    | { state := t, status := .running } => Example.keyEvents t rest
    | stopped => stopped

/-- The states the running application can be in: after a completed `initialize`
on the constructed object, and after every completed key event from such a
state, each call seeing its own engine answers. -/
inductive Reachable : Example → Prop where
  | init (eng : Engine) (s : Example)
      (h : Example.initialize Example.ctor eng = { state := s, status := .running }) :
      Reachable s
  | key (s : Example) (eng : Engine) (evt : KeyEvent) (key : Key) (t : Example)
      (hs : Reachable s)
      (h : Example.keyEvent s eng evt key = { state := t, status := .running }) :
      Reachable t

/-- A call stopped on a failure (a failed assertion, a null dereference, an
exception or a buffer overrun). -/
def Status.isFailed : Status → Bool
  | .failed _ => true
  | _ => false

/-- The bookkeeping agrees with the handles: the application holds one live
scene exactly when `scene` is non-null, one live font exactly when `font` is
non-null, and it never held two scenes at once. -/
def Example.Balanced (s : Example) : Prop :=
  s.liveScenes = (if s.scene.isSome then 1 else 0) ∧
  s.liveFonts = (if s.font.isSome then 1 else 0) ∧
  s.peakScenes ≤ 1

instance (s : Example) : Decidable s.Balanced := by
  unfold Example.Balanced
  infer_instance

/-! Sample engines and states, used to evaluate the model. -/

/-- A scene with a node `Camera` that carries a camera. -/
def sampleScene : Scene :=
  { nodes := [("Camera", { camera := some { id := 1 } })], activeCamera := none }

/-- A scene whose node `Camera` carries no camera. -/
def blindScene : Scene :=
  { nodes := [("Camera", { camera := none })], activeCamera := none }

/-- A second scene, told from `sampleScene` by its camera. -/
def otherScene : Scene :=
  { nodes := [("Camera", { camera := some { id := 2 } })], activeCamera := none }

/-- An engine whose directory holds `files`, every one of them a loadable scene. -/
def sampleEngine (files : List String) (h : files.length ≤ 2147483647) : Engine :=
  { listFiles := fun _ => files,
    sceneLoad := fun _ => some sampleScene,
    fontCreate := fun _ => some { size := 16 },
    fits := fun _ => h }

/-- An engine whose directory holds `files`, every one of them a scene whose
node `Camera` carries no camera. -/
def blindEngine (files : List String) (h : files.length ≤ 2147483647) : Engine :=
  { listFiles := fun _ => files,
    sceneLoad := fun _ => some blindScene,
    fontCreate := fun _ => some { size := 16 },
    fits := fun _ => h }

/-- An engine whose directory is empty. -/
def emptyDirectory : Engine := sampleEngine [] (by decide)

/-- An engine whose directory holds the one scene `a.scene`. -/
def oneScene : Engine := sampleEngine ["a.scene"] (by decide)

/-- An engine whose directory holds three scenes. -/
def threeScenes : Engine := sampleEngine ["a", "b", "c"] (by decide)

/-- An engine whose directory holds the one file `a.scene`, for which
`Scene::load` returns null. -/
def nullDirectory : Engine :=
  { listFiles := fun _ => ["a.scene"],
    sceneLoad := fun _ => none,
    fontCreate := fun _ => some { size := 16 },
    fits := fun _ => by simp }

/-- An engine whose directory holds the one scene `a.scene`, whose node `Camera`
carries no camera. -/
def blindDirectory : Engine := blindEngine ["a.scene"] (by decide)

/-- An engine whose directory now holds the single file `b.scene`: the path
`res/scenes/a.scene` loads `sampleScene`, every other path `otherScene`. -/
def renamedEngine : Engine :=
  { listFiles := fun _ => ["b.scene"],
    sceneLoad := fun path =>
      if path = "res/scenes/a.scene" then some sampleScene else some otherScene,
    fontCreate := fun _ => some { size := 16 },
    fits := fun _ => by simp }

/-- The state after start-up on a directory holding the one scene `a.scene`. -/
def startedOnOne : Example :=
  ( Example.initialize Example.ctor oneScene).state

/-- The state after start-up on one scene, then Space pressed once the directory
has been emptied. -/
def reloadedOnEmpty : Example :=
  (Example.keyEvent startedOnOne emptyDirectory .KEY_PRESS .KEY_SPACE).state

/-- A state with three scenes listed and the cursor on the last one. -/
def atLastOfThree : Example :=
  { Example.ctor with sceneIndex := 2, sceneList := ["a", "b", "c"] }

/-- The state after start-up on an empty directory. -/
def startedOnEmpty : Example :=
  ( Example.initialize Example.ctor emptyDirectory).state

/-- The state after start-up on an empty directory and `k` presses of the right
arrow, the directory still empty: the index has moved to `k`. -/
def afterRights (k : Nat) : Example :=
  { startedOnEmpty with sceneIndex := (k : Int) }

/-- The state after start-up on an empty directory and `k` presses of the left
arrow, the directory still empty: the index has moved to `-k`. -/
def afterLefts (k : Nat) : Example :=
  { startedOnEmpty with sceneIndex := -(k : Int) }

/-! Helper lemmas. -/

theorem toInt_of_mem (x : Int) (h0 : INT_MIN ≤ x) (h1 : x ≤ INT_MAX) : toInt x = x := by
  unfold toInt
  unfold INT_MIN at h0
  unfold INT_MAX at h1
  omega

theorem wrapSceneIndex_eq (i : Int) (n : Nat) (hfit : n ≤ 2147483647) :
    wrapSceneIndex i n =
      if i > (n : Int) - 1 then 0 else if i < 0 then (n : Int) - 1 else i := by
  have h : toInt (toInt (n : Int) - 1) = (n : Int) - 1 := by
    unfold toInt
    omega
  unfold wrapSceneIndex
  simp only [h]

theorem wrapSceneIndex_nonneg (i : Int) (n : Nat) (hfit : n ≤ 2147483647) (hn : 0 < n) :
    0 ≤ wrapSceneIndex i n := by
  rw [wrapSceneIndex_eq i n hfit]
  split_ifs <;> omega

theorem wrapSceneIndex_le (i : Int) (n : Nat) (hfit : n ≤ 2147483647) (hn : 0 < n) :
    wrapSceneIndex i n ≤ (n : Int) - 1 := by
  rw [wrapSceneIndex_eq i n hfit]
  split_ifs <;> omega

theorem wrapSceneIndex_of_mem (i : Int) (n : Nat) (hfit : n ≤ 2147483647)
    (h0 : 0 ≤ i) (h1 : i ≤ (n : Int) - 1) : wrapSceneIndex i n = i := by
  rw [wrapSceneIndex_eq i n hfit]
  split_ifs <;> omega

theorem vectorAt_eq_some (v : List String) (i : Int) (h0 : 0 ≤ i) (h1 : i < v.length) :
    ∃ name, vectorAt v i = some name := by
  unfold vectorAt
  have h : i.toNat < v.length := by omega
  refine ⟨v[i.toNat], ?_⟩
  rw [if_neg (by omega)]
  exact List.getElem?_eq_getElem h

theorem vectorAt_wrap (v : List String) (i : Int) (hfit : v.length ≤ 2147483647)
    (hne : v ≠ []) : ∃ name, vectorAt v (wrapSceneIndex i v.length) = some name := by
  have hn : 0 < v.length := List.length_pos.mpr hne
  have h0 := wrapSceneIndex_nonneg i v.length hfit hn
  have h1 := wrapSceneIndex_le i v.length hfit hn
  exact vectorAt_eq_some v _ h0 (by omega)

theorem isEmpty_eq_false_of_ne (v : List String) (hne : v ≠ []) : v.isEmpty = false := by
  cases v with
  | nil => exact absurd rfl hne
  | cons a l => rfl

theorem LoadScene_sceneList (s : Example) (eng : Engine) :
    (Example.LoadScene s eng).state.sceneList = eng.listFiles sceneDir := by
  unfold Example.LoadScene Example.assignScene Example.SAFE_RELEASE_scene
  simp only
  repeat' split
  all_goals simp_all

theorem LoadScene_sceneIndex (s : Example) (eng : Engine) :
    (Example.LoadScene s eng).state.sceneIndex =
      if (eng.listFiles sceneDir).isEmpty then s.sceneIndex
      else wrapSceneIndex s.sceneIndex (eng.listFiles sceneDir).length := by
  unfold Example.LoadScene Example.assignScene Example.SAFE_RELEASE_scene
  simp only
  repeat' split
  all_goals simp_all

theorem LoadScene_sceneIndex_of_ne (s : Example) (eng : Engine)
    (hne : eng.listFiles sceneDir ≠ []) :
    (Example.LoadScene s eng).state.sceneIndex =
      wrapSceneIndex s.sceneIndex (eng.listFiles sceneDir).length := by
  rw [LoadScene_sceneIndex, isEmpty_eq_false_of_ne _ hne]
  simp

theorem LoadScene_empty (s : Example) (eng : Engine) (he : eng.listFiles sceneDir = []) :
    Example.LoadScene s eng = { state := { s with sceneList := [] }, status := .running } := by
  unfold Example.LoadScene
  simp [he]

theorem LoadScene_not_outOfRange (s : Example) (eng : Engine) :
    (Example.LoadScene s eng).status ≠ .failed .outOfRange := by
  by_cases he : eng.listFiles sceneDir = []
  · rw [LoadScene_empty s eng he]; simp
  · obtain ⟨name, hname⟩ :=
      vectorAt_wrap (eng.listFiles sceneDir) s.sceneIndex (eng.fits sceneDir) he
    unfold Example.LoadScene Example.assignScene Example.SAFE_RELEASE_scene
    simp only
    repeat' split
    all_goals simp_all

/-- The scene handle after `LoadScene` on a non-empty listing: the result of
`Scene::load` on the selected path, with its active camera set when the call
ran to its end. -/
theorem LoadScene_scene (s : Example) (eng : Engine) (hne : eng.listFiles sceneDir ≠ []) :
    ∃ name, vectorAt (eng.listFiles sceneDir)
        (wrapSceneIndex s.sceneIndex (eng.listFiles sceneDir).length) = some name ∧
      ((Example.LoadScene s eng).state.scene = eng.sceneLoad (sceneDir ++ name) ∨
        ∃ sc cameraNode camera, eng.sceneLoad (sceneDir ++ name) = some sc ∧
          sc.findNode "Camera" = some cameraNode ∧ cameraNode.camera = some camera ∧
          (Example.LoadScene s eng).status = .running ∧
          (Example.LoadScene s eng).state.scene = some (sc.setActiveCamera camera)) := by
  obtain ⟨name, hname⟩ :=
    vectorAt_wrap (eng.listFiles sceneDir) s.sceneIndex (eng.fits sceneDir) hne
  refine ⟨name, hname, ?_⟩
  unfold Example.LoadScene Example.assignScene Example.SAFE_RELEASE_scene
  simp only
  repeat' split
  all_goals simp_all

/-- The status of `LoadScene` on a non-empty listing when `Scene::load` returns a
scene: decided by the node `Camera` of that scene alone. -/
theorem LoadScene_loaded (s : Example) (eng : Engine) (name : String) (sc : Scene)
    (hne : eng.listFiles sceneDir ≠ [])
    (hname : vectorAt (eng.listFiles sceneDir)
      (wrapSceneIndex s.sceneIndex (eng.listFiles sceneDir).length) = some name)
    (hload : eng.sceneLoad (sceneDir ++ name) = some sc) :
    (sc.findNode "Camera" = none →
      (Example.LoadScene s eng).status = .failed .assertCamera ∧
      (Example.LoadScene s eng).state.scene = some sc) ∧
    (∀ cameraNode, sc.findNode "Camera" = some cameraNode → cameraNode.camera = none →
      (Example.LoadScene s eng).status = .failed .assertCamera ∧
      (Example.LoadScene s eng).state.scene = some sc) ∧
    (∀ cameraNode camera, sc.findNode "Camera" = some cameraNode →
      cameraNode.camera = some camera →
      (Example.LoadScene s eng).status = .running ∧
      (Example.LoadScene s eng).state.scene = some (sc.setActiveCamera camera)) := by
  have hemp := isEmpty_eq_false_of_ne _ hne
  unfold Example.LoadScene Example.assignScene Example.SAFE_RELEASE_scene
  simp only
  refine ⟨?_, ?_, ?_⟩
  · intro h
    cases hsc : s.scene <;> simp_all
  · intro nd h hc
    cases hsc : s.scene <;> simp_all
  · intro nd cam h hc
    cases hsc : s.scene <;> simp_all

/-- The status of `LoadScene` on a non-empty listing when `Scene::load` returns
null: the call stops at `scene->findNode`, before the assertion. -/
theorem LoadScene_null (s : Example) (eng : Engine) (name : String)
    (hne : eng.listFiles sceneDir ≠ [])
    (hname : vectorAt (eng.listFiles sceneDir)
      (wrapSceneIndex s.sceneIndex (eng.listFiles sceneDir).length) = some name)
    (hload : eng.sceneLoad (sceneDir ++ name) = none) :
    (Example.LoadScene s eng).status = .failed .nullPointer ∧
    (Example.LoadScene s eng).state.scene = none := by
  have hemp := isEmpty_eq_false_of_ne _ hne
  unfold Example.LoadScene Example.assignScene Example.SAFE_RELEASE_scene
  simp only
  cases hsc : s.scene <;> simp_all

theorem keyEvent_right_sceneIndex (s : Example) (eng : Engine)
    (hne : eng.listFiles sceneDir ≠ []) :
    (Example.keyEvent s eng .KEY_PRESS .KEY_RIGHT_ARROW).state.sceneIndex =
      wrapSceneIndex (toInt (s.sceneIndex + 1)) (eng.listFiles sceneDir).length := by
  show (Example.LoadScene _ eng).state.sceneIndex = _
  rw [LoadScene_sceneIndex_of_ne _ eng hne]

theorem keyEvent_left_sceneIndex (s : Example) (eng : Engine)
    (hne : eng.listFiles sceneDir ≠ []) :
    (Example.keyEvent s eng .KEY_PRESS .KEY_LEFT_ARROW).state.sceneIndex =
      wrapSceneIndex (toInt (s.sceneIndex - 1)) (eng.listFiles sceneDir).length := by
  show (Example.LoadScene _ eng).state.sceneIndex = _
  rw [LoadScene_sceneIndex_of_ne _ eng hne]

/-- Right and Left on an index `i` in `[0, n-1]` of a listing of `n ≤ INT_MAX`
files: no overflow, and the wrap gives `i+1` or `0`, `i-1` or `n-1`. -/
theorem wrap_step (i : Int) (n : Nat) (hfit : n ≤ 2147483647)
    (h0 : 0 ≤ i) (h1 : i ≤ (n : Int) - 1) :
    wrapSceneIndex (toInt (i + 1)) n = (if i + 1 > (n : Int) - 1 then 0 else i + 1) ∧
    wrapSceneIndex (toInt (i - 1)) n = (if i - 1 < 0 then (n : Int) - 1 else i - 1) := by
  have hR : toInt (i + 1) = i + 1 := by unfold toInt; omega
  have hL : toInt (i - 1) = i - 1 := by unfold toInt; omega
  rw [hR, hL, wrapSceneIndex_eq _ n hfit, wrapSceneIndex_eq _ n hfit]
  constructor
  · split_ifs <;> omega
  · split_ifs <;> omega

theorem SAFE_RELEASE_scene_balanced (s : Example) (hb : s.Balanced) :
    s.SAFE_RELEASE_scene.Balanced ∧ s.SAFE_RELEASE_scene.scene = none ∧
      s.SAFE_RELEASE_scene.liveScenes = 0 := by
  obtain ⟨h1, h2, h3⟩ := hb
  unfold Example.SAFE_RELEASE_scene Example.Balanced
  cases hsc : s.scene with
  | none => simp_all
  | some sc => simp_all

theorem LoadScene_balanced (s : Example) (eng : Engine) (hb : s.Balanced) :
    (Example.LoadScene s eng).state.Balanced := by
  obtain ⟨h1, h2, h3⟩ := hb
  unfold Example.LoadScene Example.assignScene Example.SAFE_RELEASE_scene Example.Balanced
  simp only
  cases hsc : s.scene <;> simp only [hsc] at h1 <;> simp at h1 <;>
    repeat' split
  all_goals simp_all

theorem keyEvent_balanced (s : Example) (eng : Engine) (evt : KeyEvent) (key : Key)
    (hb : s.Balanced) : (Example.keyEvent s eng evt key).state.Balanced := by
  have hidx : ∀ i : Int, ({ s with sceneIndex := i } : Example).Balanced := fun i => hb
  cases evt with
  | KEY_PRESS =>
    cases key with
    | KEY_ESCAPE => exact hb
    | KEY_LEFT_ARROW => exact LoadScene_balanced _ eng (hidx _)
    | KEY_RIGHT_ARROW => exact LoadScene_balanced _ eng (hidx _)
    | KEY_SPACE => exact LoadScene_balanced _ eng hb
    | other code => exact hb
  | KEY_RELEASE => exact hb
  | KEY_CHAR => exact hb

theorem initialize_ctor_balanced (eng : Engine) :
    ( Example.initialize Example.ctor eng).state.Balanced := by
  unfold Example.initialize
  simp only
  cases hf : eng.fontCreate "res/arial.gpb" with
  | none => simp [Example.Balanced, Example.ctor]
  | some f =>
    apply LoadScene_balanced
    simp [Example.Balanced, Example.ctor]

theorem reachable_balanced (s : Example) (hs : Reachable s) : s.Balanced := by
  induction hs with
  | init eng s h =>
    have hb := initialize_ctor_balanced eng
    rw [h] at hb
    exact hb
  | key s eng evt key t _ h ih =>
    have hb := keyEvent_balanced s eng evt key ih
    rw [h] at hb
    exact hb

theorem reachable_startedOnOne : Reachable startedOnOne :=
  Reachable.init oneScene startedOnOne (by decide)

theorem reachable_reloadedOnEmpty : Reachable reloadedOnEmpty :=
  Reachable.key startedOnOne emptyDirectory .KEY_PRESS .KEY_SPACE reloadedOnEmpty
    reachable_startedOnOne (by decide)

theorem reachable_afterRights (k : Nat) (hk : (k : Int) ≤ INT_MAX) :
    Reachable (afterRights k) := by
  induction k with
  | zero =>
    exact Reachable.init emptyDirectory (afterRights 0) (by decide)
  | succ k ih =>
    have hk' : (k : Int) ≤ INT_MAX := by push_cast at hk; omega
    refine Reachable.key (afterRights k) emptyDirectory .KEY_PRESS .KEY_RIGHT_ARROW _
      (ih hk') ?_
    show Example.LoadScene _ emptyDirectory = _
    rw [LoadScene_empty _ emptyDirectory rfl]
    have h : toInt ((k : Int) + 1) = ((k + 1 : Nat) : Int) := by
      unfold INT_MAX at hk
      unfold toInt
      push_cast at hk ⊢
      omega
    simp only [afterRights, h]
    rfl

theorem reachable_afterLefts (k : Nat) (hk : INT_MIN ≤ -(k : Int)) :
    Reachable (afterLefts k) := by
  induction k with
  | zero =>
    exact Reachable.init emptyDirectory (afterLefts 0) (by decide)
  | succ k ih =>
    have hk' : INT_MIN ≤ -(k : Int) := by push_cast at hk; omega
    refine Reachable.key (afterLefts k) emptyDirectory .KEY_PRESS .KEY_LEFT_ARROW _
      (ih hk') ?_
    show Example.LoadScene _ emptyDirectory = _
    rw [LoadScene_empty _ emptyDirectory rfl]
    have h : toInt (-(k : Int) - 1) = -((k + 1 : Nat) : Int) := by
      unfold INT_MIN at hk
      unfold toInt
      push_cast at hk ⊢
      omega
    simp only [afterLefts, h]
    rfl

theorem LoadScene_not_assertFont (s : Example) (eng : Engine) :
    (Example.LoadScene s eng).status ≠ .failed .assertFont := by
  unfold Example.LoadScene Example.assignScene Example.SAFE_RELEASE_scene
  simp only
  repeat' split
  all_goals simp_all

theorem keyEvent_arrow_not_outOfRange (s : Example) (eng : Engine) :
    (Example.keyEvent s eng .KEY_PRESS .KEY_RIGHT_ARROW).status ≠ .failed .outOfRange ∧
    (Example.keyEvent s eng .KEY_PRESS .KEY_LEFT_ARROW).status ≠ .failed .outOfRange :=
  ⟨LoadScene_not_outOfRange _ eng, LoadScene_not_outOfRange _ eng⟩

/-- Two key events in sequence, the first of which runs to its end: the sequence
ends in the state the second call leaves. -/
theorem keyEvents_two (s : Example) (e1 e2 : Engine) (evt1 evt2 : KeyEvent) (k1 k2 : Key)
    (h : (Example.keyEvent s e1 evt1 k1).status = .running) :
    (Example.keyEvents s [(e1, evt1, k1), (e2, evt2, k2)]).state =
      (Example.keyEvent (Example.keyEvent s e1 evt1 k1).state e2 evt2 k2).state := by
  cases ho : Example.keyEvent s e1 evt1 k1 with
  | mk t st =>
    rw [ho] at h
    simp only at h
    subst h
    cases ho2 : Example.keyEvent t e2 evt2 k2 with
    | mk t2 st2 =>
      cases st2 <;> simp [Example.keyEvents, ho, ho2]

/-! The claims. -/

/-- C1: for every value of `sceneIndex` before the call and every non-empty
directory listing of `n` files, after `LoadScene` the index lies in `[0, n-1]`,
the lookup `sceneList.at(sceneIndex)` is in range (the call never stops on
`std::out_of_range`), and the scene handle holds what `Scene::load` returned for
the path `sceneDir ++ sceneList[sceneIndex]` at that final index (with its
active camera set once the call has run to its end). -/
theorem C1_LoadScene_index_in_range (s : Example) (eng : Engine)
    (hne : eng.listFiles sceneDir ≠ []) :
    0 ≤ (Example.LoadScene s eng).state.sceneIndex ∧
    (Example.LoadScene s eng).state.sceneIndex ≤ ((eng.listFiles sceneDir).length : Int) - 1 ∧
    (Example.LoadScene s eng).state.sceneList = eng.listFiles sceneDir ∧
    (Example.LoadScene s eng).status ≠ .failed .outOfRange ∧
    ∃ name,
      vectorAt (Example.LoadScene s eng).state.sceneList
        (Example.LoadScene s eng).state.sceneIndex = some name ∧
      ((Example.LoadScene s eng).state.scene = eng.sceneLoad (sceneDir ++ name) ∨
        ∃ sc camera, eng.sceneLoad (sceneDir ++ name) = some sc ∧
          (Example.LoadScene s eng).state.scene = some (sc.setActiveCamera camera)) := by
  have hn : 0 < (eng.listFiles sceneDir).length := List.length_pos.mpr hne
  have hfit := eng.fits sceneDir
  have hidx := LoadScene_sceneIndex_of_ne s eng hne
  refine ⟨?_, ?_, LoadScene_sceneList s eng, LoadScene_not_outOfRange s eng, ?_⟩
  · rw [hidx]; exact wrapSceneIndex_nonneg _ _ hfit hn
  · rw [hidx]; exact wrapSceneIndex_le _ _ hfit hn
  · obtain ⟨name, hname, hsc⟩ := LoadScene_scene s eng hne
    refine ⟨name, ?_, ?_⟩
    · rw [LoadScene_sceneList, hidx]; exact hname
    · rcases hsc with h | ⟨sc, _, camera, h1, _, _, _, h2⟩
      · exact Or.inl h
      · exact Or.inr ⟨sc, camera, h1, h2⟩

/-- Witness of C1: three files and the index 7, far past the end. -/
theorem C1_LoadScene_index_in_range_witness :
    threeScenes.listFiles sceneDir ≠ [] ∧
    0 ≤ (Example.LoadScene { Example.ctor with sceneIndex := 7 }
          threeScenes).state.sceneIndex :=
  ⟨by decide,
   (C1_LoadScene_index_in_range { Example.ctor with sceneIndex := 7 }
      threeScenes (by decide)).1⟩

/-- C2: with a non-empty listing of `n` files and the index `i` in `[0, n-1]`, a
press of the right arrow leaves the index at `(i+1) mod n` and a press of the
left arrow leaves it at `(i-1+n) mod n`; in particular Right at `n-1` gives `0`
and Left at `0` gives `n-1`. -/
theorem C2_arrows_wrap_at_both_ends (s : Example) (eng : Engine)
    (hne : eng.listFiles sceneDir ≠ [])
    (h0 : 0 ≤ s.sceneIndex)
    (h1 : s.sceneIndex ≤ ((eng.listFiles sceneDir).length : Int) - 1) :
    (Example.keyEvent s eng .KEY_PRESS .KEY_RIGHT_ARROW).state.sceneIndex =
      (s.sceneIndex + 1) % ((eng.listFiles sceneDir).length : Int) ∧
    (Example.keyEvent s eng .KEY_PRESS .KEY_LEFT_ARROW).state.sceneIndex =
      (s.sceneIndex - 1 + ((eng.listFiles sceneDir).length : Int)) %
        ((eng.listFiles sceneDir).length : Int) ∧
    (s.sceneIndex = ((eng.listFiles sceneDir).length : Int) - 1 →
      (Example.keyEvent s eng .KEY_PRESS .KEY_RIGHT_ARROW).state.sceneIndex = 0) ∧
    (s.sceneIndex = 0 →
      (Example.keyEvent s eng .KEY_PRESS .KEY_LEFT_ARROW).state.sceneIndex =
        ((eng.listFiles sceneDir).length : Int) - 1) := by
  obtain ⟨hR, hL⟩ := wrap_step s.sceneIndex _ (eng.fits sceneDir) h0 h1
  rw [keyEvent_right_sceneIndex s eng hne, keyEvent_left_sceneIndex s eng hne, hR, hL]
  refine ⟨?_, ?_, ?_, ?_⟩
  · by_cases h : s.sceneIndex + 1 > ((eng.listFiles sceneDir).length : Int) - 1
    · have : s.sceneIndex + 1 = ((eng.listFiles sceneDir).length : Int) := by omega
      rw [if_pos h, this, Int.emod_self]
    · rw [if_neg h]
      exact (Int.emod_eq_of_lt (by omega) (by omega)).symm
  · by_cases h : s.sceneIndex - 1 < 0
    · have : s.sceneIndex = 0 := by omega
      rw [if_pos h, this]
      exact (Int.emod_eq_of_lt (by omega) (by omega)).symm
    · rw [if_neg h, Int.add_emod_self]
      exact (Int.emod_eq_of_lt (by omega) (by omega)).symm
  · intro he
    rw [if_pos (by omega)]
  · intro he
    rw [if_pos (by omega)]

/-- Witness of C2: three files, the cursor on the last one. -/
theorem C2_arrows_wrap_at_both_ends_witness :
    threeScenes.listFiles sceneDir ≠ [] ∧
    (Example.keyEvent atLastOfThree threeScenes
      .KEY_PRESS .KEY_RIGHT_ARROW).state.sceneIndex = 0 :=
  ⟨by decide,
   (C2_arrows_wrap_at_both_ends atLastOfThree threeScenes
      (by decide) (by decide) (by decide)).2.2.1 rfl⟩

/-- C3 fails on the code: after start-up on a directory with one scene, a
`LoadScene` that finds the directory empty runs to its end with the scene list
empty and the scene handle still non-null: the scene loaded earlier is neither
released nor replaced, and one live scene is still held. -/
theorem C3_stale_scene_on_empty_directory :
    ( Example.initialize Example.ctor oneScene).status = .running ∧
    emptyDirectory.listFiles sceneDir = [] ∧
    (Example.LoadScene startedOnOne emptyDirectory).status = .running ∧
    (Example.LoadScene startedOnOne emptyDirectory).state.sceneList = [] ∧
    (Example.LoadScene startedOnOne emptyDirectory).state.scene
      = some (sampleScene.setActiveCamera { id := 1 }) ∧
    (Example.LoadScene startedOnOne emptyDirectory).state.scene ≠ none ∧
    (Example.LoadScene startedOnOne emptyDirectory).state.liveScenes = 1 := by
  decide

/-- C4: in every state reachable from the constructor by `initialize` followed
by key events under arbitrary engine answers, the application holds at most one
live scene, holds one exactly when the scene handle is non-null, and never held
two at once; from such a state every key event again ends (or stops) with at
most one live scene and never two at once, because `LoadScene` loads only after
`SAFE_RELEASE(scene)` has brought the count to zero and nulled the handle. -/
theorem C4_at_most_one_scene_loaded (s : Example) (hs : Reachable s) :
    s.liveScenes ≤ 1 ∧
    (s.liveScenes = 1 ↔ s.scene.isSome = true) ∧
    s.peakScenes ≤ 1 ∧
    (s.SAFE_RELEASE_scene.liveScenes = 0 ∧ s.SAFE_RELEASE_scene.scene = none) ∧
    ∀ (eng : Engine) (evt : KeyEvent) (key : Key),
      (Example.keyEvent s eng evt key).state.liveScenes ≤ 1 ∧
      (Example.keyEvent s eng evt key).state.peakScenes ≤ 1 ∧
      ((Example.keyEvent s eng evt key).state.liveScenes = 1 ↔
        (Example.keyEvent s eng evt key).state.scene.isSome = true) := by
  have key : ∀ t : Example, t.Balanced →
      t.liveScenes ≤ 1 ∧ (t.liveScenes = 1 ↔ t.scene.isSome = true) ∧ t.peakScenes ≤ 1 := by
    intro t ht
    obtain ⟨h1, _, h3⟩ := ht
    refine ⟨?_, ?_, h3⟩
    · rw [h1]; split_ifs <;> omega
    · rw [h1]; split_ifs with h <;> simp [h]
  have hb := reachable_balanced s hs
  obtain ⟨a, b, c⟩ := key s hb
  obtain ⟨_, r1, r2⟩ := SAFE_RELEASE_scene_balanced s hb
  refine ⟨a, b, c, ⟨r2, r1⟩, ?_⟩
  intro eng evt k
  obtain ⟨a', b', c'⟩ := key _ (keyEvent_balanced s eng evt k hb)
  exact ⟨a', c', b'⟩

/-- Witness of C4: the state after start-up on a directory with one scene. -/
theorem C4_at_most_one_scene_loaded_witness :
    Reachable startedOnOne ∧ startedOnOne.liveScenes ≤ 1 :=
  ⟨reachable_startedOnOne, (C4_at_most_one_scene_loaded startedOnOne reachable_startedOnOne).1⟩

/-- C5, as stated, fails: the state after start-up on an empty directory and
2147483647 presses of the right arrow is reachable and has the index `INT_MAX`;
one more press, the directory still empty, runs to its end and leaves the index
at `INT_MIN`, not at old + 1, a value no `int` can hold. The same happens to
Left at `INT_MIN`, which leaves the index at `INT_MAX`. -/
theorem C5_index_at_INT_MAX_counterexample :
    Reachable (afterRights 2147483647) ∧
    (afterRights 2147483647).sceneIndex = INT_MAX ∧
    emptyDirectory.listFiles sceneDir = [] ∧
    (Example.keyEvent (afterRights 2147483647) emptyDirectory
      .KEY_PRESS .KEY_RIGHT_ARROW).status = .running ∧
    (Example.keyEvent (afterRights 2147483647) emptyDirectory
      .KEY_PRESS .KEY_RIGHT_ARROW).state.sceneIndex = INT_MIN ∧
    (Example.keyEvent (afterRights 2147483647) emptyDirectory
      .KEY_PRESS .KEY_RIGHT_ARROW).state.sceneIndex
        ≠ (afterRights 2147483647).sceneIndex + 1 ∧
    INT_MAX < (afterRights 2147483647).sceneIndex + 1 ∧
    Reachable (afterLefts 2147483648) ∧
    (afterLefts 2147483648).sceneIndex = INT_MIN ∧
    (Example.keyEvent (afterLefts 2147483648) emptyDirectory
      .KEY_PRESS .KEY_LEFT_ARROW).state.sceneIndex = INT_MAX ∧
    (Example.keyEvent (afterLefts 2147483648) emptyDirectory
      .KEY_PRESS .KEY_LEFT_ARROW).state.sceneIndex
        ≠ (afterLefts 2147483648).sceneIndex - 1 :=
  ⟨reachable_afterRights 2147483647 (by decide), by decide, by decide, by decide, by decide,
   by decide, by decide, reachable_afterLefts 2147483648 (by decide), by decide, by decide,
   by decide⟩

/-- C5, amended: for every state whose index is an `int` below `INT_MAX`, a press
of the right arrow runs `LoadScene` on the state whose index is exactly the old
index plus one; for every state whose index is an `int` above `INT_MIN`, a press
of the left arrow runs it on the state whose index is exactly the old index
minus one; so when the listing is empty, or that value lies in `[0, n-1]` for
the listing of `n` files, the final index is exactly old + 1 (Right) or old - 1
(Left). -/
theorem C5_arrows_increment_decrement (s : Example) (eng : Engine)
    (hlo : INT_MIN ≤ s.sceneIndex) (hhi : s.sceneIndex ≤ INT_MAX) :
    (s.sceneIndex < INT_MAX →
      Example.keyEvent s eng .KEY_PRESS .KEY_RIGHT_ARROW =
        Example.LoadScene { s with sceneIndex := s.sceneIndex + 1 } eng ∧
      ((eng.listFiles sceneDir = [] ∨
          (0 ≤ s.sceneIndex + 1 ∧
            s.sceneIndex + 1 ≤ ((eng.listFiles sceneDir).length : Int) - 1)) →
        (Example.keyEvent s eng .KEY_PRESS .KEY_RIGHT_ARROW).state.sceneIndex
          = s.sceneIndex + 1)) ∧
    (INT_MIN < s.sceneIndex →
      Example.keyEvent s eng .KEY_PRESS .KEY_LEFT_ARROW =
        Example.LoadScene { s with sceneIndex := s.sceneIndex - 1 } eng ∧
      ((eng.listFiles sceneDir = [] ∨
          (0 ≤ s.sceneIndex - 1 ∧
            s.sceneIndex - 1 ≤ ((eng.listFiles sceneDir).length : Int) - 1)) →
        (Example.keyEvent s eng .KEY_PRESS .KEY_LEFT_ARROW).state.sceneIndex
          = s.sceneIndex - 1)) := by
  have key : ∀ i : Int,
      (eng.listFiles sceneDir = [] ∨
        (0 ≤ i ∧ i ≤ ((eng.listFiles sceneDir).length : Int) - 1)) →
      (Example.LoadScene { s with sceneIndex := i } eng).state.sceneIndex = i := by
    intro i h
    rw [LoadScene_sceneIndex]
    rcases h with h | ⟨h0, h1⟩
    · simp [h]
    · split_ifs
      · rfl
      · exact wrapSceneIndex_of_mem _ _ (eng.fits sceneDir) h0 h1
  constructor
  · intro hlt
    have hR : toInt (s.sceneIndex + 1) = s.sceneIndex + 1 :=
      toInt_of_mem _ (by omega) (by omega)
    have hk : Example.keyEvent s eng .KEY_PRESS .KEY_RIGHT_ARROW =
        Example.LoadScene { s with sceneIndex := s.sceneIndex + 1 } eng := by
      show Example.LoadScene { s with sceneIndex := toInt (s.sceneIndex + 1) } eng = _
      rw [hR]
    refine ⟨hk, fun h => ?_⟩
    rw [hk]
    exact key _ h
  · intro hgt
    have hL : toInt (s.sceneIndex - 1) = s.sceneIndex - 1 :=
      toInt_of_mem _ (by omega) (by omega)
    have hk : Example.keyEvent s eng .KEY_PRESS .KEY_LEFT_ARROW =
        Example.LoadScene { s with sceneIndex := s.sceneIndex - 1 } eng := by
      show Example.LoadScene { s with sceneIndex := toInt (s.sceneIndex - 1) } eng = _
      rw [hL]
    refine ⟨hk, fun h => ?_⟩
    rw [hk]
    exact key _ h

/-- Witness of C5 (amended): from index 0 of three files, Right gives 1; on an
empty directory, Left from 0 gives -1. -/
theorem C5_arrows_increment_decrement_witness :
    INT_MIN ≤ Example.ctor.sceneIndex ∧ Example.ctor.sceneIndex ≤ INT_MAX ∧
    Example.ctor.sceneIndex < INT_MAX ∧ INT_MIN < Example.ctor.sceneIndex ∧
    (Example.keyEvent Example.ctor threeScenes
      .KEY_PRESS .KEY_RIGHT_ARROW).state.sceneIndex = Example.ctor.sceneIndex + 1 ∧
    (Example.keyEvent Example.ctor emptyDirectory
      .KEY_PRESS .KEY_LEFT_ARROW).state.sceneIndex = Example.ctor.sceneIndex - 1 :=
  ⟨by decide, by decide, by decide, by decide,
   ((C5_arrows_increment_decrement Example.ctor threeScenes (by decide) (by decide)).1
      (by decide)).2 (Or.inr (by decide)),
   ((C5_arrows_increment_decrement Example.ctor emptyDirectory (by decide) (by decide)).2
      (by decide)).2 (Or.inl rfl)⟩

/-- C6, as stated, fails: after start-up on a directory holding `a.scene` the
current scene is `a.scene` (index 0); the directory then holds `b.scene`
instead, a non-empty listing with index 0 in range; a press of Space runs to
its end with the index unchanged, and the scene loaded is `b.scene`, which is
not the scene that was current. -/
theorem C6_listing_changed_counterexample :
    ( Example.initialize Example.ctor oneScene).status = .running ∧
    vectorAt startedOnOne.sceneList startedOnOne.sceneIndex = some "a.scene" ∧
    startedOnOne.scene = some (sampleScene.setActiveCamera { id := 1 }) ∧
    Example.render startedOnOne =
      .ok [("Press Space to reload current scene", 0),
           ("Press Left/Right arrow to browse scenes in 'res/scenes/'", 16),
           ("Current scene [0] 'a.scene'", 32)] ∧
    renamedEngine.listFiles sceneDir ≠ [] ∧
    0 ≤ startedOnOne.sceneIndex ∧
    startedOnOne.sceneIndex ≤ ((renamedEngine.listFiles sceneDir).length : Int) - 1 ∧
    (Example.keyEvent startedOnOne renamedEngine .KEY_PRESS .KEY_SPACE).status = .running ∧
    (Example.keyEvent startedOnOne renamedEngine .KEY_PRESS .KEY_SPACE).state.sceneIndex
      = startedOnOne.sceneIndex ∧
    vectorAt (Example.keyEvent startedOnOne renamedEngine .KEY_PRESS .KEY_SPACE).state.sceneList
      (Example.keyEvent startedOnOne renamedEngine .KEY_PRESS .KEY_SPACE).state.sceneIndex
      = some "b.scene" ∧
    (Example.keyEvent startedOnOne renamedEngine .KEY_PRESS .KEY_SPACE).state.scene
      = some (otherScene.setActiveCamera { id := 2 }) ∧
    Example.render (Example.keyEvent startedOnOne renamedEngine .KEY_PRESS .KEY_SPACE).state =
      .ok [("Press Space to reload current scene", 0),
           ("Press Left/Right arrow to browse scenes in 'res/scenes/'", 16),
           ("Current scene [0] 'b.scene'", 32)] :=
  ⟨by decide, by decide, by decide, rfl, by decide, by decide, by decide, by decide,
   by decide, by decide, by decide, rfl⟩

/-- C6, amended: a press of Space is `LoadScene` on the unchanged state; with a
non-empty listing of `n` files and the index in `[0, n-1]` the index is
unchanged afterwards, and the scene handle holds what `Scene::load` returned
for `sceneDir ++ sceneList[sceneIndex]` in the new listing (with its active
camera set once the call has run to its end); when the listing is the same as
before the key press, that file is the one that was current. -/
theorem C6_space_reloads_scene_at_index (s : Example) (eng : Engine)
    (hne : eng.listFiles sceneDir ≠ [])
    (h0 : 0 ≤ s.sceneIndex)
    (h1 : s.sceneIndex ≤ ((eng.listFiles sceneDir).length : Int) - 1) :
    Example.keyEvent s eng .KEY_PRESS .KEY_SPACE = Example.LoadScene s eng ∧
    (Example.keyEvent s eng .KEY_PRESS .KEY_SPACE).state.sceneIndex = s.sceneIndex ∧
    (Example.keyEvent s eng .KEY_PRESS .KEY_SPACE).state.sceneList = eng.listFiles sceneDir ∧
    ∃ name,
      vectorAt (eng.listFiles sceneDir) s.sceneIndex = some name ∧
      ((Example.keyEvent s eng .KEY_PRESS .KEY_SPACE).state.scene
          = eng.sceneLoad (sceneDir ++ name) ∨
        ∃ sc camera, eng.sceneLoad (sceneDir ++ name) = some sc ∧
          (Example.keyEvent s eng .KEY_PRESS .KEY_SPACE).state.scene
            = some (sc.setActiveCamera camera)) ∧
      (eng.listFiles sceneDir = s.sceneList →
        vectorAt s.sceneList s.sceneIndex = some name) := by
  have hw := wrapSceneIndex_of_mem s.sceneIndex _ (eng.fits sceneDir) h0 h1
  refine ⟨rfl, ?_, LoadScene_sceneList s eng, ?_⟩
  · show (Example.LoadScene s eng).state.sceneIndex = _
    rw [LoadScene_sceneIndex_of_ne s eng hne, hw]
  · obtain ⟨name, hname, hsc⟩ := LoadScene_scene s eng hne
    rw [hw] at hname
    refine ⟨name, hname, ?_, ?_⟩
    · show (Example.LoadScene s eng).state.scene = _ ∨ ∃ sc camera, _ ∧
        (Example.LoadScene s eng).state.scene = _
      rcases hsc with h | ⟨sc, _, camera, h1, _, _, _, h2⟩
      · exact Or.inl h
      · exact Or.inr ⟨sc, camera, h1, h2⟩
    · intro hsame
      rw [← hsame]
      exact hname

/-- Witness of C6 (amended): three files, the cursor on the last one. -/
theorem C6_space_reloads_scene_at_index_witness :
    threeScenes.listFiles sceneDir ≠ [] ∧
    (Example.keyEvent atLastOfThree threeScenes
      .KEY_PRESS .KEY_SPACE).state.sceneIndex = atLastOfThree.sceneIndex :=
  ⟨by decide,
   (C6_space_reloads_scene_at_index atLastOfThree threeScenes
      (by decide) (by decide) (by decide)).2.1⟩

/-- C7: after `finalize` the scene handle and the font handle are null; each
non-null handle was released exactly once (the count of live scenes, and of
live fonts, drops by one for a non-null handle and by nothing for a null one),
so an application whose counts agree with its handles holds no live scene or
font afterwards; a second `finalize` changes nothing. -/
theorem C7_finalize_releases_everything (s : Example) :
    (Example.finalize s).scene = none ∧
    (Example.finalize s).font = none ∧
    (Example.finalize s).liveScenes = s.liveScenes - (if s.scene.isSome then 1 else 0) ∧
    (Example.finalize s).liveFonts = s.liveFonts - (if s.font.isSome then 1 else 0) ∧
    (s.Balanced → (Example.finalize s).liveScenes = 0 ∧ (Example.finalize s).liveFonts = 0) ∧
    (Example.finalize s).sceneIndex = s.sceneIndex ∧
    (Example.finalize s).sceneList = s.sceneList ∧
    Example.finalize (Example.finalize s) = Example.finalize s := by
  unfold Example.finalize Example.SAFE_RELEASE_font Example.SAFE_RELEASE_scene Example.Balanced
  cases hsc : s.scene <;> cases hf : s.font <;> simp_all

/-- Witness of C7: shutting down after start-up on a directory with one scene. -/
theorem C7_finalize_releases_everything_witness :
    startedOnOne.Balanced ∧
    (Example.finalize startedOnOne).liveScenes = 0 ∧
    (Example.finalize startedOnOne).liveFonts = 0 :=
  ⟨by decide, (C7_finalize_releases_everything startedOnOne).2.2.2.2.1 (by decide)⟩

/-- C8, as stated, fails: on a directory with one file for which `Scene::load`
returns null, the font having been created, `LoadScene` and `initialize` stop on
a failure that is neither of the two assertions (the call `scene->findNode`
through the null handle); no scene is loaded, so there is no loaded scene
lacking the node `Camera` or its camera, and `LoadScene fails iff the loaded
scene lacks them` is false there. -/
theorem C8_null_scene_counterexample :
    nullDirectory.listFiles sceneDir ≠ [] ∧
    nullDirectory.fontCreate "res/arial.gpb" ≠ none ∧
    nullDirectory.sceneLoad (sceneDir ++ "a.scene") = none ∧
    (Example.LoadScene Example.ctor nullDirectory).status.isFailed = true ∧
    (Example.LoadScene Example.ctor nullDirectory).status = .failed .nullPointer ∧
    (Example.LoadScene Example.ctor nullDirectory).status ≠ .failed .assertCamera ∧
    (Example.LoadScene Example.ctor nullDirectory).status ≠ .failed .assertFont ∧
    (Example.LoadScene Example.ctor nullDirectory).state.scene = none ∧
    ( Example.initialize Example.ctor nullDirectory).status = .failed .nullPointer ∧
    ¬ ((Example.LoadScene Example.ctor nullDirectory).status.isFailed = true ↔
        ∃ sc, nullDirectory.sceneLoad (sceneDir ++ "a.scene") = some sc ∧
          (sc.findNode "Camera" = none ∨
            ∃ cameraNode, sc.findNode "Camera" = some cameraNode ∧
              cameraNode.camera = none)) := by
  refine ⟨by decide, by decide, rfl, by decide, by decide, by decide, by decide,
    by decide, by decide, ?_⟩
  intro h
  obtain ⟨sc, hsc, _⟩ := h.mp (by decide)
  exact Option.noConfusion hsc

/-- C8, amended: (1) `initialize` stops on a failure iff `Font::create` returns null (the
failed `GP_ASSERT(font)`) or the `LoadScene` it then runs stops on a failure;
(2) `LoadScene` on a non-empty listing, `Scene::load` having returned the scene
`sc` for the selected path, stops on a failure iff `sc` has no node `Camera` or
that node has no camera, the failure is then the failed camera assertion, and
otherwise the call runs to its end with the active camera of the scene set to
that node's camera; whatever `Scene::load` returns, the camera assertion fails
iff a scene was loaded and lacks the node or its camera; (3) `LoadScene` on an
empty listing runs to its end; (4) the font assertion never fails in
`LoadScene`, and fails in `initialize` iff `Font::create` returns null. -/
theorem C8_failures_are_the_two_assertions (s : Example) (eng : Engine) :
    ((( Example.initialize s eng).status.isFailed = true) ↔
      (eng.fontCreate "res/arial.gpb" = none ∨
        ∃ f, eng.fontCreate "res/arial.gpb" = some f ∧
          (Example.LoadScene { s with font := some f, liveFonts := s.liveFonts + 1 }
            eng).status.isFailed = true)) ∧
    (eng.fontCreate "res/arial.gpb" = none →
      ( Example.initialize s eng).status = .failed .assertFont) ∧
    (∀ (name : String) (sc : Scene), eng.listFiles sceneDir ≠ [] →
      vectorAt (eng.listFiles sceneDir)
        (wrapSceneIndex s.sceneIndex (eng.listFiles sceneDir).length) = some name →
      eng.sceneLoad (sceneDir ++ name) = some sc →
      (((Example.LoadScene s eng).status.isFailed = true ↔
          (sc.findNode "Camera" = none ∨
            ∃ cameraNode, sc.findNode "Camera" = some cameraNode ∧
              cameraNode.camera = none)) ∧
        ((Example.LoadScene s eng).status.isFailed = true →
          (Example.LoadScene s eng).status = .failed .assertCamera) ∧
        (∀ cameraNode camera, sc.findNode "Camera" = some cameraNode →
          cameraNode.camera = some camera →
          (Example.LoadScene s eng).status = .running ∧
          (Example.LoadScene s eng).state.scene = some (sc.setActiveCamera camera) ∧
          (Example.LoadScene s eng).state.scene.bind Scene.activeCamera = some camera))) ∧
    (∀ (name : String), eng.listFiles sceneDir ≠ [] →
      vectorAt (eng.listFiles sceneDir)
        (wrapSceneIndex s.sceneIndex (eng.listFiles sceneDir).length) = some name →
      ((Example.LoadScene s eng).status = .failed .assertCamera ↔
        ∃ sc, eng.sceneLoad (sceneDir ++ name) = some sc ∧
          (sc.findNode "Camera" = none ∨
            ∃ cameraNode, sc.findNode "Camera" = some cameraNode ∧
              cameraNode.camera = none))) ∧
    (eng.listFiles sceneDir = [] → (Example.LoadScene s eng).status = .running) ∧
    (Example.LoadScene s eng).status ≠ .failed .assertFont ∧
    (( Example.initialize s eng).status = .failed .assertFont ↔
      eng.fontCreate "res/arial.gpb" = none) := by
  have part2 : ∀ (name : String) (sc : Scene), eng.listFiles sceneDir ≠ [] →
      vectorAt (eng.listFiles sceneDir)
        (wrapSceneIndex s.sceneIndex (eng.listFiles sceneDir).length) = some name →
      eng.sceneLoad (sceneDir ++ name) = some sc →
      (((Example.LoadScene s eng).status.isFailed = true ↔
          (sc.findNode "Camera" = none ∨
            ∃ cameraNode, sc.findNode "Camera" = some cameraNode ∧
              cameraNode.camera = none)) ∧
        ((Example.LoadScene s eng).status.isFailed = true →
          (Example.LoadScene s eng).status = .failed .assertCamera) ∧
        (∀ cameraNode camera, sc.findNode "Camera" = some cameraNode →
          cameraNode.camera = some camera →
          (Example.LoadScene s eng).status = .running ∧
          (Example.LoadScene s eng).state.scene = some (sc.setActiveCamera camera) ∧
          (Example.LoadScene s eng).state.scene.bind Scene.activeCamera = some camera)) := by
    intro name sc hne hname hload
    obtain ⟨hA, hB, hC⟩ := LoadScene_loaded s eng name sc hne hname hload
    cases hfind : sc.findNode "Camera" with
    | none =>
      obtain ⟨h1, _⟩ := hA hfind
      simp [h1, Status.isFailed]
    | some nd =>
      cases hcam : nd.camera with
      | none =>
        obtain ⟨h1, _⟩ := hB nd hfind hcam
        simp [h1, Status.isFailed, hcam]
        intro nd' cam' hnd hc
        subst hnd
        rw [hcam] at hc
        exact Option.noConfusion hc
      | some cam =>
        obtain ⟨h1, h2⟩ := hC nd cam hfind hcam
        simp [h1, h2, Status.isFailed, hcam, Scene.setActiveCamera]
        intro nd' cam' hnd hc
        subst hnd
        rw [hcam] at hc
        exact Option.some.inj hc
  refine ⟨?_, ?_, part2, ?_, ?_, LoadScene_not_assertFont s eng, ?_⟩
  · unfold Example.initialize
    simp only
    cases hf : eng.fontCreate "res/arial.gpb" with
    | none => simp [Status.isFailed]
    | some f => simp
  · intro hf
    unfold Example.initialize
    simp only [hf]
  · intro name hne hname
    cases hload : eng.sceneLoad (sceneDir ++ name) with
    | none =>
      obtain ⟨h1, _⟩ := LoadScene_null s eng name hne hname hload
      rw [h1]
      simp
    | some sc =>
      obtain ⟨hiff, himp, _⟩ := part2 name sc hne hname hload
      constructor
      · intro h
        refine ⟨sc, rfl, hiff.mp ?_⟩
        rw [h]; rfl
      · rintro ⟨sc', hsc', h⟩
        have : sc' = sc := (Option.some.inj hsc').symm
        subst this
        exact himp (hiff.mpr h)
  · intro he
    rw [LoadScene_empty s eng he]
  · unfold Example.initialize
    simp only
    cases hf : eng.fontCreate "res/arial.gpb" with
    | none => simp
    | some f =>
      simp only
      constructor
      · intro h
        exact absurd h (LoadScene_not_assertFont _ eng)
      · intro h
        exact Option.noConfusion h

/-- Witness of C8 (amended): a directory with one scene whose node `Camera` has no camera;
`LoadScene` stops on the camera assertion. -/
theorem C8_failures_are_the_two_assertions_witness :
    blindDirectory.listFiles sceneDir ≠ [] ∧
    vectorAt (blindDirectory.listFiles sceneDir)
      (wrapSceneIndex Example.ctor.sceneIndex
        (blindDirectory.listFiles sceneDir).length) = some "a.scene" ∧
    blindDirectory.sceneLoad (sceneDir ++ "a.scene") = some blindScene ∧
    (Example.LoadScene Example.ctor blindDirectory).status.isFailed = true ∧
    (Example.LoadScene Example.ctor blindDirectory).status
      = .failed .assertCamera :=
  ⟨by decide, by decide, rfl, by decide,
   ((C8_failures_are_the_two_assertions Example.ctor blindDirectory).2.2.1
      "a.scene" blindScene (by decide) (by decide) rfl).2.1 (by decide)⟩

/-- C9 fails on the code: the state after start-up on a directory with one
scene, then Space pressed once the directory is empty, is reachable, its scene
handle is non-null, its scene list is empty, so the index 0 is not below
`sceneList.size()`, and the lookup `sceneList.at(sceneIndex)` in `render`
throws `std::out_of_range`. -/
theorem C9_render_lookup_out_of_range :
    Reachable reloadedOnEmpty ∧
    reloadedOnEmpty.scene.isSome = true ∧
    reloadedOnEmpty.sceneList = [] ∧
    reloadedOnEmpty.sceneIndex = 0 ∧
    ¬ (0 ≤ reloadedOnEmpty.sceneIndex ∧
        reloadedOnEmpty.sceneIndex < (reloadedOnEmpty.sceneList.length : Int)) ∧
    vectorAt reloadedOnEmpty.sceneList reloadedOnEmpty.sceneIndex = none ∧
    Example.render reloadedOnEmpty = .error .outOfRange :=
  ⟨reachable_reloadedOnEmpty, by decide, by decide, by decide, by decide, by decide, rfl⟩

/-- C10: with the same non-empty listing of `n` files seen by both presses and
the index `i` in `[0, n-1]`: a press of Right leaves the index at `0` when
`i = n-1` and at `i+1` otherwise, a press of Left then returns it to `i`; a press
of Left leaves the index at `n-1` when `i = 0` and at `i-1` otherwise, a press of
Right then returns it to `i`; no press stops on `std::out_of_range`; when the
first press runs to its end, the two presses handled in sequence end on the
index `i`; and for `n = 1` each press leaves the index at `0`. -/
theorem C10_left_right_inverse (s : Example) (eng1 eng2 : Engine)
    (hne : eng1.listFiles sceneDir ≠ [])
    (hsame : eng2.listFiles sceneDir = eng1.listFiles sceneDir)
    (h0 : 0 ≤ s.sceneIndex)
    (h1 : s.sceneIndex ≤ ((eng1.listFiles sceneDir).length : Int) - 1) :
    ((Example.keyEvent s eng1 .KEY_PRESS .KEY_RIGHT_ARROW).state.sceneIndex =
        (if s.sceneIndex = ((eng1.listFiles sceneDir).length : Int) - 1 then 0
          else s.sceneIndex + 1) ∧
      (Example.keyEvent s eng1 .KEY_PRESS .KEY_RIGHT_ARROW).status ≠ .failed .outOfRange ∧
      (Example.keyEvent (Example.keyEvent s eng1 .KEY_PRESS .KEY_RIGHT_ARROW).state eng2
        .KEY_PRESS .KEY_LEFT_ARROW).state.sceneIndex = s.sceneIndex ∧
      (Example.keyEvent (Example.keyEvent s eng1 .KEY_PRESS .KEY_RIGHT_ARROW).state eng2
        .KEY_PRESS .KEY_LEFT_ARROW).status ≠ .failed .outOfRange ∧
      ((Example.keyEvent s eng1 .KEY_PRESS .KEY_RIGHT_ARROW).status = .running →
        (Example.keyEvents s [(eng1, .KEY_PRESS, .KEY_RIGHT_ARROW),
          (eng2, .KEY_PRESS, .KEY_LEFT_ARROW)]).state.sceneIndex = s.sceneIndex)) ∧
    ((Example.keyEvent s eng1 .KEY_PRESS .KEY_LEFT_ARROW).state.sceneIndex =
        (if s.sceneIndex = 0 then ((eng1.listFiles sceneDir).length : Int) - 1
          else s.sceneIndex - 1) ∧
      (Example.keyEvent s eng1 .KEY_PRESS .KEY_LEFT_ARROW).status ≠ .failed .outOfRange ∧
      (Example.keyEvent (Example.keyEvent s eng1 .KEY_PRESS .KEY_LEFT_ARROW).state eng2
        .KEY_PRESS .KEY_RIGHT_ARROW).state.sceneIndex = s.sceneIndex ∧
      (Example.keyEvent (Example.keyEvent s eng1 .KEY_PRESS .KEY_LEFT_ARROW).state eng2
        .KEY_PRESS .KEY_RIGHT_ARROW).status ≠ .failed .outOfRange ∧
      ((Example.keyEvent s eng1 .KEY_PRESS .KEY_LEFT_ARROW).status = .running →
        (Example.keyEvents s [(eng1, .KEY_PRESS, .KEY_LEFT_ARROW),
          (eng2, .KEY_PRESS, .KEY_RIGHT_ARROW)]).state.sceneIndex = s.sceneIndex)) ∧
    ((eng1.listFiles sceneDir).length = 1 →
      (Example.keyEvent s eng1 .KEY_PRESS .KEY_RIGHT_ARROW).state.sceneIndex = 0 ∧
      (Example.keyEvent s eng1 .KEY_PRESS .KEY_LEFT_ARROW).state.sceneIndex = 0) := by
  have hne2 : eng2.listFiles sceneDir ≠ [] := by rw [hsame]; exact hne
  have hfit := eng1.fits sceneDir
  have hn : 0 < (eng1.listFiles sceneDir).length := List.length_pos.mpr hne
  obtain ⟨hR, hL⟩ := wrap_step s.sceneIndex _ hfit h0 h1
  have hR1 : (Example.keyEvent s eng1 .KEY_PRESS .KEY_RIGHT_ARROW).state.sceneIndex =
      (if s.sceneIndex = ((eng1.listFiles sceneDir).length : Int) - 1 then 0
        else s.sceneIndex + 1) := by
    rw [keyEvent_right_sceneIndex s eng1 hne, hR]
    split_ifs <;> omega
  have hL1 : (Example.keyEvent s eng1 .KEY_PRESS .KEY_LEFT_ARROW).state.sceneIndex =
      (if s.sceneIndex = 0 then ((eng1.listFiles sceneDir).length : Int) - 1
        else s.sceneIndex - 1) := by
    rw [keyEvent_left_sceneIndex s eng1 hne, hL]
    split_ifs <;> omega
  have hRL : (Example.keyEvent (Example.keyEvent s eng1 .KEY_PRESS .KEY_RIGHT_ARROW).state eng2
      .KEY_PRESS .KEY_LEFT_ARROW).state.sceneIndex = s.sceneIndex := by
    rw [keyEvent_left_sceneIndex _ eng2 hne2, hR1, hsame]
    by_cases h : s.sceneIndex = ((eng1.listFiles sceneDir).length : Int) - 1
    · rw [if_pos h, (wrap_step 0 _ hfit (le_refl 0) (by omega)).2]
      rw [if_pos (by omega)]
      omega
    · rw [if_neg h, (wrap_step (s.sceneIndex + 1) _ hfit (by omega) (by omega)).2]
      rw [if_neg (by omega)]
      omega
  have hLR : (Example.keyEvent (Example.keyEvent s eng1 .KEY_PRESS .KEY_LEFT_ARROW).state eng2
      .KEY_PRESS .KEY_RIGHT_ARROW).state.sceneIndex = s.sceneIndex := by
    rw [keyEvent_right_sceneIndex _ eng2 hne2, hL1, hsame]
    by_cases h : s.sceneIndex = 0
    · rw [if_pos h, (wrap_step ((eng1.listFiles sceneDir).length - 1) _ hfit
        (by omega) (le_refl _)).1]
      rw [if_pos (by omega)]
      omega
    · rw [if_neg h, (wrap_step (s.sceneIndex - 1) _ hfit (by omega) (by omega)).1]
      rw [if_neg (by omega)]
      omega
  refine ⟨⟨hR1, (keyEvent_arrow_not_outOfRange s eng1).1, hRL,
      (keyEvent_arrow_not_outOfRange _ eng2).2, ?_⟩,
    ⟨hL1, (keyEvent_arrow_not_outOfRange s eng1).2, hLR,
      (keyEvent_arrow_not_outOfRange _ eng2).1, ?_⟩, ?_⟩
  · intro hrun
    rw [keyEvents_two s eng1 eng2 _ _ _ _ hrun]
    exact hRL
  · intro hrun
    rw [keyEvents_two s eng1 eng2 _ _ _ _ hrun]
    exact hLR
  · intro hone
    rw [hR1, hL1]
    constructor
    · split_ifs <;> omega
    · split_ifs <;> omega

/-- Witness of C10: three files with the cursor on the last one, where Right
wraps to the first scene and Left returns to the last, both presses running to
their end; and a single file, where each press leaves the index at 0. -/
theorem C10_left_right_inverse_witness :
    threeScenes.listFiles sceneDir ≠ [] ∧
    0 ≤ atLastOfThree.sceneIndex ∧
    atLastOfThree.sceneIndex ≤ ((threeScenes.listFiles sceneDir).length : Int) - 1 ∧
    atLastOfThree.sceneIndex = 2 ∧
    (Example.keyEvent atLastOfThree threeScenes .KEY_PRESS .KEY_RIGHT_ARROW).status
      = .running ∧
    (Example.keyEvent atLastOfThree threeScenes .KEY_PRESS .KEY_RIGHT_ARROW).state.sceneIndex
      = 0 ∧
    (Example.keyEvent (Example.keyEvent atLastOfThree threeScenes
        .KEY_PRESS .KEY_RIGHT_ARROW).state threeScenes
      .KEY_PRESS .KEY_LEFT_ARROW).state.sceneIndex = atLastOfThree.sceneIndex ∧
    (Example.keyEvents atLastOfThree [(threeScenes, .KEY_PRESS, .KEY_RIGHT_ARROW),
      (threeScenes, .KEY_PRESS, .KEY_LEFT_ARROW)]).state.sceneIndex
      = atLastOfThree.sceneIndex ∧
    (Example.keyEvents atLastOfThree [(threeScenes, .KEY_PRESS, .KEY_RIGHT_ARROW),
      (threeScenes, .KEY_PRESS, .KEY_LEFT_ARROW)]).status = .running ∧
    (Example.keyEvent Example.ctor oneScene .KEY_PRESS .KEY_RIGHT_ARROW).state.sceneIndex = 0 ∧
    (Example.keyEvent Example.ctor oneScene .KEY_PRESS .KEY_LEFT_ARROW).state.sceneIndex = 0 :=
  ⟨by decide, by decide, by decide, by decide, by decide, by decide,
   (C10_left_right_inverse atLastOfThree threeScenes threeScenes
      (by decide) rfl (by decide) (by decide)).1.2.2.1,
   (C10_left_right_inverse atLastOfThree threeScenes threeScenes
      (by decide) rfl (by decide) (by decide)).1.2.2.2.2 (by decide),
   by decide,
   ((C10_left_right_inverse Example.ctor oneScene oneScene
      (by decide) rfl (by decide) (by decide)).2.2 (by decide)).1,
   ((C10_left_right_inverse Example.ctor oneScene oneScene
      (by decide) rfl (by decide) (by decide)).2.2 (by decide)).2⟩
